import Mathlib

/-!
Verification of the host/guest call bridge and object registry of the
multi-backend WebAssembly runtime (`lib/api` of the repository).

The definitions below are a shallow embedding of the Rust source:

* `ValType`, `Value`, raw-value marshaling — the value vocabulary used by
  `rt/sys/entities/function/mod.rs` (the vocabulary itself lives outside the
  sampled sources, so the few helpers on it are modelled from the spec's
  description of the closed tagged union).
* `SysFunction`, `call_wasm`, `call_wasm_raw`, `callLoop` — the sys-backend
  `Function` entity and its calling trampoline / resumption loop from
  `src/lib/api/src/rt/sys/entities/function/mod.rs`.
* `dynWrapper`, `DynamicFunction.func_wrapper` — the dynamic host-function
  invocation wrapper from the same file.
* `SysGlobal`, `RuntimeGlobal.new` — globals (`entities/global/inner.rs`;
  the backend half is modelled from the spec, see the doc comments).
* `StoreObjects`, `Function.new…` façade constructors — from
  `entities/store/obj.rs` and `entities/function/wasm_function.rs`.

Machine integers are carried as raw bit patterns in `Nat`; the bridge never
performs arithmetic on them, it only moves them between typed values and the
flat raw buffer.  Rust panics are modelled as explicit outcome constructors
(`CallOutcome.panicked`, `FacadeOutcome.panicTodo`, `Option.none` for the
`StoreObjects::same` panic arm).
-/

set_option autoImplicit false
set_option linter.unusedVariables false

namespace Wasmer

/-- Value kinds of the closed WebAssembly value vocabulary
(`wasmer_types::Type`): 32/64-bit integers, 32/64-bit floats, 128-bit
vector, external reference, function reference, exception reference. -/
inductive ValType
  | i32
  | i64
  | f32
  | f64
  | v128
  | externref
  | funcref
  | exnref
  deriving DecidableEq, Repr

/-- Function signature: ordered parameter kinds and ordered result kinds
(`wasmer_types::FunctionType`), compared by value equality. -/
structure FunctionType where
  params : List ValType
  results : List ValType
  deriving DecidableEq, Repr

/-- Identity-tagged handle into a store's object registry: the store identity
that minted it plus the registry slot (`wasmer_vm::StoreHandle`, reduced to
the two components the claims depend on). -/
structure ObjHandle where
  storeId : Nat
  idx : Nat
  deriving DecidableEq, Repr

/-- Runtime value (`wasmer::Value`): a closed tagged union over the primitive
kinds.  Numeric payloads are raw bit patterns; reference kinds carry an
optional store-scoped handle (`none` is the null reference). -/
inductive Value
  | i32 (bits : Nat)
  | i64 (bits : Nat)
  | f32 (bits : Nat)
  | f64 (bits : Nat)
  | v128 (bits : Nat)
  | externref (h : Option ObjHandle)
  | funcref (h : Option ObjHandle)
  | exnref (h : Option ObjHandle)
  deriving DecidableEq, Repr

/-- Kind of a value (`Value::ty`).  Modelled from the spec: the value
vocabulary is a closed tagged union with an equality/kind accessor; the
accessor maps each variant to its kind. -/
def Value.ty : Value → ValType
  | .i32 _ => .i32
  | .i64 _ => .i64
  | .f32 _ => .f32
  | .f64 _ => .f64
  | .v128 _ => .v128
  | .externref _ => .externref
  | .funcref _ => .funcref
  | .exnref _ => .exnref

/-- Store-scoping check of a value (`Value::is_from_store`).  Modelled from
the spec: values of reference kind carry a handle and are store-scoped
(the handle's identity must be the store's identity); primitive numeric
values and null references are store-independent. -/
def Value.is_from_store (v : Value) (sid : Nat) : Bool :=
  match v with
  | .externref (some h) => h.storeId == sid
  | .funcref (some h) => h.storeId == sid
  | .exnref (some h) => h.storeId == sid
  | _ => true

/-- Serialization of a value into one flat raw-buffer slot
(`Value::as_raw`).  Numeric kinds store their exact bit pattern; a null
reference serializes to 0 and a non-null reference to its registry address
(encoded here as slot index + 1). -/
def Value.as_raw : Value → Nat
  | .i32 bits => bits
  | .i64 bits => bits
  | .f32 bits => bits
  | .f64 bits => bits
  | .v128 bits => bits
  | .externref none => 0
  | .externref (some h) => h.idx + 1
  | .funcref none => 0
  | .funcref (some h) => h.idx + 1
  | .exnref none => 0
  | .exnref (some h) => h.idx + 1

/-- Deserialization of one raw slot at a declared kind
(`Value::from_raw`), attaching the current store's identity to reference
kinds.  Numeric kinds read the low bits of the slot exactly (32, 64 or 128
bits); raw 0 is the null reference. -/
def Value.from_raw (sid : Nat) (ty : ValType) (raw : Nat) : Value :=
  match ty with
  | .i32 => .i32 (raw % 2 ^ 32)
  | .i64 => .i64 (raw % 2 ^ 64)
  | .f32 => .f32 (raw % 2 ^ 32)
  | .f64 => .f64 (raw % 2 ^ 64)
  | .v128 => .v128 (raw % 2 ^ 128)
  | .externref => .externref (if raw = 0 then none else some ⟨sid, raw - 1⟩)
  | .funcref => .funcref (if raw = 0 then none else some ⟨sid, raw - 1⟩)
  | .exnref => .exnref (if raw = 0 then none else some ⟨sid, raw - 1⟩)

/-- Errors raised by the calling bridge.  The source uses
`RuntimeError::new(message)`; each constructor below corresponds to one
distinct error site (with its message) of the sampled sources, plus
`user`/`trap` for host-raised and guest-raised faults. -/
inductive RuntimeError
  | paramMismatch
  | resultMismatch
  | crossStore
  | wrongResultSig
  | user (code : Nat)
  | trap (code : Nat)
  | globalConst
  | globalType
  deriving DecidableEq, Repr

/-- Action returned by a resumption ("on_called") hook
(`wasmer_types::OnCalledAction`); the trap payload is abstracted to a code. -/
inductive OnCalledAction
  | invokeAgain
  | finish
  | trap (t : Nat)
  deriving DecidableEq, Repr

/-- Result of consulting one resumption hook: the hook either returns an
action or fails with an error (both the `Ok(Trap(_))` and the `Err(_)` shape
of the Rust callback are represented). -/
inductive HookOutcome
  | ok (a : OnCalledAction)
  | err (t : Nat)
  deriving DecidableEq, Repr

/-- Store (`StoreInner`), reduced to the parts the claims depend on: its
process-unique identity and the chain of pending one-shot resumption hooks
(`on_called`).  The head of the list is the currently installed hook; the
tail pre-encodes the hooks that consecutive consultations re-install.  The
object registries are elided; entities carry the identity tag directly. -/
structure Store where
  id : Nat
  onCalled : List HookOutcome
  deriving DecidableEq, Repr

/-- Mutability flag of a global (`wasmer_types::Mutability`). -/
inductive Mutability
  | const
  | var
  deriving DecidableEq, Repr

/-- Type of a global: value kind plus mutability
(`wasmer_types::GlobalType`). -/
structure GlobalType where
  ty : ValType
  mutability : Mutability
  deriving DecidableEq, Repr

/-- Sys-backend global entity: the identity of the owning store, the global
type fixed at creation, and the single stored value. -/
structure SysGlobal where
  storeId : Nat
  ty : GlobalType
  value : Value
  deriving DecidableEq, Repr

/-- Creation of a sys-backend global with an initial value and mutability
(the `rt::sys` half of `RuntimeGlobal::from_value`).  Modelled from the
spec: the backend global implementation is not among the sampled sources;
per the spec a Global holds exactly one value plus a mutability flag fixed
at creation, with the value kind taken from the initial value. -/
def SysGlobal.from_value (store : Store) (val : Value) (m : Mutability) : SysGlobal :=
  ⟨store.id, ⟨val.ty, m⟩, val⟩

/-- Read of a global's current value (`RuntimeGlobal::get`, sys backend).
Modelled from the spec: `get` returns the stored value. -/
def SysGlobal.get (g : SysGlobal) : Value :=
  g.value

/-- Write of a global (`RuntimeGlobal::set`, sys backend).  Modelled from
the spec: writes to a `Const` global fail; writes must match the global's
value kind exactly; a successful write replaces the stored value.  The
result pairs the success/failure with the global afterwards (unchanged on
failure). -/
def SysGlobal.set (g : SysGlobal) (v : Value) : Except RuntimeError Unit × SysGlobal :=
  match g.ty.mutability with
  | .const => (.error .globalConst, g)
  | .var =>
      if v.ty ≠ g.ty.ty then (.error .globalType, g)
      else (.ok (), { g with value := v })

/-- Store-scoping check of a global, comparing the carried identity with the
store's identity (the uniform `is_from_store` of the entity façade). -/
def SysGlobal.is_from_store (g : SysGlobal) (store : Store) : Bool :=
  g.storeId == store.id

/-- Façade constructor `RuntimeGlobal::new` (entities/global/inner.rs): it
delegates to `from_value` with mutability fixed to `Const`; on a sys store
the dispatch selects the sys backend, which is the one modelled here. -/
def RuntimeGlobal.new (store : Store) (val : Value) : SysGlobal :=
  SysGlobal.from_value store val .const

/-- Façade constructor `RuntimeGlobal::new_mut`: `from_value` with
mutability `Var`. -/
def RuntimeGlobal.new_mut (store : Store) (val : Value) : SysGlobal :=
  SysGlobal.from_value store val .var

/-- Kind of a VM function (`wasmer_vm::VMFunctionKind`): dynamic host
functions go through the generic value list, static ones through a
per-signature trampoline. -/
inductive VMFunctionKind
  | static
  | dynamic
  deriving DecidableEq, Repr

/-- Sys-backend function entity (`rt::sys::function::Function`), reduced to
the identity of the store whose registry holds its `VMFunction`, its
signature, and its kind.  The registry slot and the native code address are
elided; the native call itself is abstracted as a `Trampoline` argument of
the call functions. -/
structure SysFunction where
  storeId : Nat
  signature : FunctionType
  kind : VMFunctionKind
  deriving DecidableEq, Repr

/-- Behaviour of one native trampoline invocation
(`wasmer_vm::wasmer_call_trampoline`, an external collaborator): given the
invocation index and the flat raw buffer, it returns the guest outcome
(unit or a guest trap) together with the buffer afterwards (the native call
writes results into the same buffer in place). -/
abbrev Trampoline := Nat → List Nat → Except RuntimeError Unit × List Nat

/-- Sys-backend `Function::new_with_env` (dynamic construction path): it
installs the wrapper closure behind a fresh `VMFunction` of kind `Dynamic`
allocated in the store's registry, so the resulting entity carries the
store's identity and the declared signature.  The wrapper itself is
modelled separately as `dynWrapper` / `DynamicFunction.func_wrapper`. -/
def SysFunction.new_with_env (store : Store) (ty : FunctionType) : SysFunction :=
  ⟨store.id, ty, .dynamic⟩

/-- Sys-backend `Function::new_typed` / `new_typed_with_env` (static
construction path): signature derived from the native types, kind
`Static`. -/
def SysFunction.new_typed (store : Store) (ty : FunctionType) : SysFunction :=
  ⟨store.id, ty, .static⟩

/-- Store-scoping check of a sys function (`Function::is_from_store`):
compares the handle's store identity with the given store's identity. -/
def SysFunction.is_from_store (f : SysFunction) (store : Store) : Bool :=
  f.storeId == store.id

/-- Opaque host reference entity (`rt::sys::entities::external.rs`
`ExternRef`): a store handle to a registry-allocated host object.  The
payload is elided; `idx` is the registry slot assigned at allocation. -/
structure ExternRef where
  handle : ObjHandle
  deriving DecidableEq, Repr

/-- `ExternRef::new`: allocates the host value into the store's registry,
producing a handle tagged with the store's identity. -/
def ExternRef.new (store : Store) (idx : Nat) : ExternRef :=
  ⟨⟨store.id, idx⟩⟩

/-- `ExternRef::is_from_store`: compares the handle's store identity with
the given store's identity. -/
def ExternRef.is_from_store (e : ExternRef) (store : Store) : Bool :=
  e.handle.storeId == store.id

/-- Argument marshaling loop of `Function::call_wasm`: walk the declared
parameter kinds and the typed arguments in parallel (the source zips the
three iterators, stopping at the shortest); for each argument, first reject
a kind mismatch (same message as the arity error), then reject an argument
that is not from the calling store, then serialize it into its slot. -/
def marshalArgs (sid : Nat) : List ValType → List Value → Except RuntimeError (List Nat)
  | _, [] => .ok []
  | [], _ :: _ => .ok []
  | ty :: tys, arg :: args =>
      if arg.ty ≠ ty then .error .paramMismatch
      else if arg.is_from_store sid then
        match marshalArgs sid tys args with
        | .error e => .error e
        | .ok raws => .ok (arg.as_raw :: raws)
      else .error .crossStore

/-- Outcome of a call-path step, distinguishing a Rust panic (the
out-of-bounds `Vec` index in the unmarshal step) from a returned error. -/
inductive CallOutcome (α : Type)
  | ok (a : α)
  | err (e : RuntimeError)
  | panicked
  deriving DecidableEq, Repr

/-- Result unmarshal step of `Function::call_wasm_raw`: read one raw slot
per declared result kind, in order (`results[index] =
Value::from_raw(store, value_type, params[index])`).  Indexing the raw
vector past its end is a Rust panic, modelled as `panicked`. -/
def unmarshalResults (sid : Nat) (resultTys : List ValType) (buf : List Nat) :
    CallOutcome (List Value) :=
  if resultTys.length ≤ buf.length then
    .ok (resultTys.enum.map (fun p => Value.from_raw sid p.2 (buf.getD p.1 0)))
  else .panicked

/-- Intermediate result of the trampoline loop of `call_wasm_raw`: either
the loop broke with the last invocation's guest outcome and the buffer, or
a resumption hook aborted the call with a trap. -/
inductive LoopRes
  | done (r : Except RuntimeError Unit) (buf : List Nat)
  | hookTrap (e : RuntimeError)
  deriving Repr

/-- Trampoline loop of `Function::call_wasm_raw`: invoke the native
trampoline, then consume the store's pending one-shot hook if present
(`on_called.take()`): no hook breaks the loop; `InvokeAgain` re-invokes with
the same buffer; `Finish` breaks; `Ok(Trap(t))` and `Err(t)` return the
error `RuntimeError::user(t)` immediately.  Arguments: the hook chain, the
index of the next invocation, the buffer.  Returns the loop result, the
total number of trampoline invocations performed, and the hooks left
unconsumed. -/
def callLoop (tramp : Trampoline) :
    List HookOutcome → Nat → List Nat → LoopRes × Nat × List HookOutcome
  | [], n, buf =>
      (.done (tramp n buf).1 (tramp n buf).2, n + 1, [])
  | .ok .invokeAgain :: rest, n, buf =>
      callLoop tramp rest (n + 1) (tramp n buf).2
  | .ok .finish :: rest, n, buf =>
      (.done (tramp n buf).1 (tramp n buf).2, n + 1, rest)
  | .ok (.trap t) :: rest, n, buf =>
      (.hookTrap (.user t), n + 1, rest)
  | .err t :: rest, n, buf =>
      (.hookTrap (.user t), n + 1, rest)

/-- `Function::call_wasm_raw`: run the trampoline loop over the raw
parameter vector; a hook trap or a guest trap is returned as an error with
no result extraction; on success the results are unmarshaled from the final
buffer.  Returns the outcome, the number of trampoline invocations, and the
hooks left on the store. -/
def call_wasm_raw (f : SysFunction) (tramp : Trampoline) (sid : Nat)
    (hooks : List HookOutcome) (params : List Nat) :
    CallOutcome (List Value) × Nat × List HookOutcome :=
  match callLoop tramp hooks 0 params with
  | (.hookTrap e, n, rest) => (.err e, n, rest)
  | (.done (.error e) _, n, rest) => (.err e, n, rest)
  | (.done (.ok _) buf, n, rest) => (unmarshalResults sid f.signature.results buf, n, rest)

/-- `Function::call_wasm`: reject up front an argument count differing from
the parameter arity or a result-slice length differing from the result
arity; marshal the typed arguments (kind check, then same-store check, per
argument); size the flat buffer to `max(params.len(), results.len())` with
the marshaled arguments in the leading slots and zeroed slots after; then
run `call_wasm_raw`.  On a rejected call the trampoline is never invoked
and the store's hook chain is returned unconsumed. -/
def call_wasm (f : SysFunction) (tramp : Trampoline) (store : Store)
    (params : List Value) (resultsLen : Nat) :
    CallOutcome (List Value) × Nat × List HookOutcome :=
  if f.signature.params.length ≠ params.length then
    (.err .paramMismatch, 0, store.onCalled)
  else if f.signature.results.length ≠ resultsLen then
    (.err .resultMismatch, 0, store.onCalled)
  else
    match marshalArgs store.id f.signature.params params with
    | .error e => (.err e, 0, store.onCalled)
    | .ok raws =>
        call_wasm_raw f tramp store.id store.onCalled
          (raws ++ List.replicate (max params.length resultsLen - params.length) 0)

/-- Public `Function::call` (sys backend): sizes the result slice to the
function's result arity and delegates to `call_wasm`. -/
def SysFunction.call (f : SysFunction) (tramp : Trampoline) (store : Store)
    (params : List Value) : CallOutcome (List Value) × Nat × List HookOutcome :=
  call_wasm f tramp store params f.signature.results.length

/-- Public `Function::call_raw` (sys backend): sizes the result slice to the
result arity but passes the caller's raw vector through to `call_wasm_raw`
unchecked. -/
def SysFunction.call_raw (f : SysFunction) (tramp : Trampoline) (store : Store)
    (params : List Nat) : CallOutcome (List Value) × Nat × List HookOutcome :=
  call_wasm_raw f tramp store.id store.onCalled params

/-- Outcome of running the host closure of a dynamic function: it returns
the value, returns a runtime error, or panics (the panic payload is
abstracted to a code). -/
inductive HostRun (α : Type)
  | ok (a : α)
  | err (e : RuntimeError)
  | panicked (p : Nat)
  deriving DecidableEq, Repr

/-- Argument reconstruction of the dynamic wrapper closure
(`Function::new_with_env`): one typed value per declared parameter kind,
positionally, read back from the flat buffer with `Value::from_raw`. -/
def readArgs (funcTy : FunctionType) (sid : Nat) (buf : List Nat) : List Value :=
  funcTy.params.enum.map (fun p => Value.from_raw sid p.2 (buf.getD p.1 0))

/-- Result write-back loop of the dynamic wrapper closure: serialize the
produced values into the leading buffer slots in order
(`values_vec.add(i).write_unaligned(ret.as_raw(&store))`). -/
def writeResults : Nat → List Value → List Nat → List Nat
  | _, [], buf => buf
  | k, r :: rs, buf => writeResults (k + 1) rs (buf.set k r.as_raw)

/-- The wrapper closure installed by the sys-backend
`Function::new_with_env` around the host closure: reconstruct the typed
arguments from the flat buffer, run the host closure (a host error
propagates via `?`, a host panic unwinds through the wrapper), check that
the produced result kinds-in-order equal the declared result kinds (an
iterator comparison, so a length difference also fails), and only then
serialize the results back into the buffer.  The returned buffer is the
buffer after the call: unchanged on every failure path. -/
def dynWrapper (funcTy : FunctionType) (host : List Value → HostRun (List Value))
    (sid : Nat) (buf : List Nat) : HostRun Unit × List Nat :=
  match host (readArgs funcTy sid buf) with
  | .panicked p => (.panicked p, buf)
  | .err e => (.err e, buf)
  | .ok rets =>
      if rets.map Value.ty ≠ funcTy.results then (.err .wrongResultSig, buf)
      else (.ok (), writeResults 0 rets buf)

/-- What the guest observes after the dynamic invocation boundary: a normal
return with the written buffer, a user trap raised with
`raise_user_trap`, or a panic re-raised with `resume_panic`. -/
inductive BoundaryOutcome
  | normalReturn (buf : List Nat)
  | userTrap (e : RuntimeError) (buf : List Nat)
  | resumedPanic (p : Nat)
  deriving DecidableEq, Repr

/-- `DynamicFunction::func_wrapper`: run the wrapper closure on a host
stack frame under `panic::catch_unwind`; a clean `Ok(())` returns normally,
an `Ok(Err(trap))` raises a user trap, and a caught panic is re-raised
with `resume_panic` after the boundary is crossed. -/
def DynamicFunction.func_wrapper (funcTy : FunctionType)
    (host : List Value → HostRun (List Value)) (sid : Nat) (buf : List Nat) :
    BoundaryOutcome :=
  match dynWrapper funcTy host sid buf with
  | (.ok _, buf2) => .normalReturn buf2
  | (.err e, buf2) => .userTrap e buf2
  | (.panicked p, _) => .resumedPanic p

/-- Backend selection of a store (`embedders::Embedder`). -/
inductive Embedder
  | sys
  | wamr
  | wasmi
  | v8
  | js
  | jsc
  deriving DecidableEq, Repr

/-- Outcome of a façade constructor: a constructed entity, or the
`todo!()` panic the source currently contains. -/
inductive FacadeOutcome (α : Type)
  | ok (a : α)
  | panicTodo
  deriving DecidableEq, Repr

/-- Façade `Function::new_with_env` (entities/function/wasm_function.rs):
the body reads the store's embedder and then, on the sys-gated branch as
well as on the fallthrough, executes `todo!()` — every path panics, no
backend constructor is ever reached. -/
def Function.new_with_env (emb : Embedder) (ty : FunctionType) :
    FacadeOutcome SysFunction :=
  match emb with
  | .sys => .panicTodo
  | _ => .panicTodo

/-- Façade `Function::new`: wraps the env-less closure and delegates to
`Function::new_with_env`. -/
def Function.new (emb : Embedder) (ty : FunctionType) : FacadeOutcome SysFunction :=
  Function.new_with_env emb ty

/-- Façade `Function::new_typed`: same shape as `new_with_env`, every path
executes `todo!()`.  The signature argument stands for the one derived from
the native argument/result types. -/
def Function.new_typed (emb : Embedder) (ty : FunctionType) :
    FacadeOutcome SysFunction :=
  match emb with
  | .sys => .panicTodo
  | _ => .panicTodo

/-- Façade `Function::new_typed_with_env`: same shape, every path executes
`todo!()`. -/
def Function.new_typed_with_env (emb : Embedder) (ty : FunctionType) :
    FacadeOutcome SysFunction :=
  match emb with
  | .sys => .panicTodo
  | _ => .panicTodo

/-- Per-backend store-object sets (`entities/store/obj.rs` `StoreObjects`),
reduced to the store identity each carries; the fork's enum has a `Wasmi`
variant alongside the five others. -/
inductive StoreObjects
  | sys (id : Nat)
  | wamr (id : Nat)
  | wasmi (id : Nat)
  | v8 (id : Nat)
  | js (id : Nat)
  | jsc (id : Nat)
  deriving DecidableEq, Repr

/-- `StoreObjects::id`: the identity of the store, uniformly over every
variant. -/
def StoreObjects.id : StoreObjects → Nat
  | .sys i => i
  | .wamr i => i
  | .wasmi i => i
  | .v8 i => i
  | .js i => i
  | .jsc i => i

/-- `StoreObjects::same`: compare two store-object sets.  The source
matches on the pair with one arm per backend — `Sys`, `Wamr`, `V8`, `Js`,
`Jsc`, but no `(Wasmi, Wasmi)` arm — and a catch-all
`panic!("Incompatible StoreObjects instance ...")`; the panic is modelled
as `none`. -/
def StoreObjects.same (a b : StoreObjects) : Option Bool :=
  match a, b with
  | .sys i, .sys j => some (i == j)
  | .wamr i, .wamr j => some (i == j)
  | .v8 i, .v8 j => some (i == j)
  | .js i, .js j => some (i == j)
  | .jsc i, .jsc j => some (i == j)
  | _, _ => none

/-- Trampoline behaviour that returns successfully and leaves the buffer
untouched; a concrete instance used to evaluate the call path on explicit
inputs. -/
def idTrampoline : Trampoline :=
  fun _ buf => (.ok (), buf)

/-- C5: a Global created via `RuntimeGlobal::new` has `Const` mutability, so
`set` fails for every value and leaves the stored value unchanged. -/
theorem const_global_set_fails (store : Store) (v0 v : Value) :
    SysGlobal.set (RuntimeGlobal.new store v0) v
      = (Except.error RuntimeError.globalConst, RuntimeGlobal.new store v0) := by
  rfl

/-- C6: for a `Var` global, `set` with a kind-matching value succeeds and a
subsequent `get` returns that value; `set` with a kind-mismatching value
fails with the type-mismatch error and leaves the global unchanged. -/
theorem var_global_set_get (store : Store) (v0 v : Value) :
    (v.ty = v0.ty →
      (SysGlobal.set (SysGlobal.from_value store v0 .var) v).1 = Except.ok ()
      ∧ ((SysGlobal.set (SysGlobal.from_value store v0 .var) v).2).get = v)
    ∧ (v.ty ≠ v0.ty →
      SysGlobal.set (SysGlobal.from_value store v0 .var) v
        = (Except.error RuntimeError.globalType, SysGlobal.from_value store v0 .var)) := by
  constructor
  · intro h
    simp [SysGlobal.set, SysGlobal.from_value, SysGlobal.get, h]
  · intro h
    simp [SysGlobal.set, SysGlobal.from_value, h]

/-- C6 witness: the spec's concrete scenario on a `Var` i32 global created
with value 5: `set` of an i64 value fails with the type mismatch, `set` of
`I32(7)` succeeds and `get` then returns `I32(7)`. -/
theorem var_global_set_get_witness :
    ((Value.i32 7).ty = (Value.i32 5).ty
      ∧ (SysGlobal.set (SysGlobal.from_value ⟨0, []⟩ (Value.i32 5) .var) (Value.i32 7)).1
          = Except.ok ()
      ∧ ((SysGlobal.set (SysGlobal.from_value ⟨0, []⟩ (Value.i32 5) .var) (Value.i32 7)).2).get
          = Value.i32 7)
    ∧ ((Value.i64 1).ty ≠ (Value.i32 5).ty
      ∧ SysGlobal.set (SysGlobal.from_value ⟨0, []⟩ (Value.i32 5) .var) (Value.i64 1)
          = (Except.error RuntimeError.globalType,
             SysGlobal.from_value ⟨0, []⟩ (Value.i32 5) .var)) := by
  refine ⟨⟨by decide, ?_⟩, ⟨by decide, ?_⟩⟩
  · have h := (var_global_set_get ⟨0, []⟩ (Value.i32 5) (Value.i32 7)).1 (by decide)
    exact ⟨h.1, h.2⟩
  · exact (var_global_set_get ⟨0, []⟩ (Value.i32 5) (Value.i64 1)).2 (by decide)

theorem writeResults_length (rs : List Value) : ∀ (k : Nat) (buf : List Nat),
    (writeResults k rs buf).length = buf.length := by
  induction rs with
  | nil => intro k buf; rfl
  | cons r rs ih =>
      intro k buf
      rw [writeResults, ih, List.length_set]

theorem writeResults_getElem?_lt (rs : List Value) : ∀ (k j : Nat) (buf : List Nat),
    j < k → (writeResults k rs buf)[j]? = buf[j]? := by
  induction rs with
  | nil => intro k j buf h; rfl
  | cons r rs ih =>
      intro k j buf h
      rw [writeResults, ih (k + 1) j _ (Nat.lt_succ_of_lt h),
        List.getElem?_set_ne (Nat.ne_of_gt h)]

theorem writeResults_getElem?_ge (rs : List Value) : ∀ (k j : Nat) (buf : List Nat),
    k + rs.length ≤ j → (writeResults k rs buf)[j]? = buf[j]? := by
  induction rs with
  | nil => intro k j buf h; rfl
  | cons r rs ih =>
      intro k j buf h
      have hlen : k + rs.length + 1 ≤ j := by
        simpa [Nat.add_comm, Nat.add_assoc, Nat.add_left_comm] using h
      have hk : k < j := by omega
      rw [writeResults, ih (k + 1) j _ (by omega), List.getElem?_set_ne (Nat.ne_of_lt hk)]

theorem writeResults_getElem?_in (rs : List Value) : ∀ (k j : Nat) (buf : List Nat),
    k ≤ j → j < k + rs.length → j < buf.length →
    (writeResults k rs buf)[j]? = some ((rs.getD (j - k) (Value.i32 0)).as_raw) := by
  induction rs with
  | nil =>
      intro k j buf h1 h2 h3
      simp only [List.length_nil] at h2
      omega
  | cons r rs ih =>
      intro k j buf h1 h2 h3
      rcases Nat.eq_or_lt_of_le h1 with heq | hlt

      · subst heq
        rw [writeResults, writeResults_getElem?_lt rs (k + 1) k _ (Nat.lt_succ_self k),
          List.getElem?_set_self h3]
        simp
      · rw [writeResults,
          ih (k + 1) j _ hlt (by simp only [List.length_cons] at h2; omega)
            (by simpa using h3)]
        have hidx : j - k = (j - (k + 1)) + 1 := by omega
        rw [hidx, List.getD_cons_succ]

theorem marshalArgs_ok_length (sid : Nat) (args : List Value) :
    ∀ (tys : List ValType) (raws : List Nat), tys.length = args.length →
    marshalArgs sid tys args = .ok raws → raws.length = args.length := by
  induction args with
  | nil =>
      intro tys raws hlen hm
      cases tys with
      | nil => simp [marshalArgs] at hm; simp [← hm]
      | cons t ts => simp at hlen
  | cons a as ih =>
      intro tys raws hlen hm
      cases tys with
      | nil => simp at hlen
      | cons t ts =>
        simp only [marshalArgs] at hm
        by_cases hty : a.ty = t
        · by_cases hfs : a.is_from_store sid
          · simp only [hty, ne_eq, not_true_eq_false, if_false, hfs, if_true] at hm
            rcases hrec : marshalArgs sid ts as with e | raws'
            · rw [hrec] at hm; simp at hm
            · rw [hrec] at hm
              simp only [Except.ok.injEq] at hm
              subst hm
              simp [ih ts raws' (by simpa using hlen) hrec]
          · simp [hty, hfs] at hm
        · simp [hty] at hm

theorem marshalArgs_ok_sound (sid : Nat) (args : List Value) :
    ∀ (tys : List ValType) (raws : List Nat), tys.length = args.length →
    marshalArgs sid tys args = .ok raws →
    args.map Value.ty = tys ∧ ∀ v ∈ args, v.is_from_store sid = true := by
  induction args with
  | nil =>
      intro tys raws hlen hm
      cases tys with
      | nil => exact ⟨rfl, by simp⟩
      | cons t ts => simp at hlen
  | cons a as ih =>
      intro tys raws hlen hm
      cases tys with
      | nil => simp at hlen
      | cons t ts =>
        simp only [marshalArgs] at hm
        by_cases hty : a.ty = t
        · by_cases hfs : a.is_from_store sid
          · simp only [hty, ne_eq, not_true_eq_false, if_false, hfs, if_true] at hm
            rcases hrec : marshalArgs sid ts as with e | raws'
            · rw [hrec] at hm; simp at hm
            · have hrest := ih ts raws' (by simpa using hlen) hrec
              refine ⟨by simp [hty, hrest.1], ?_⟩
              intro v hv
              rcases List.mem_cons.mp hv with h | h
              · subst h; exact hfs
              · exact hrest.2 v h
          · simp [hty, hfs] at hm
        · simp [hty] at hm

theorem marshalArgs_cross_store (sid : Nat) (args : List Value) :
    ∀ (tys : List ValType), args.map Value.ty = tys →
    (∃ v ∈ args, v.is_from_store sid = false) →
    marshalArgs sid tys args = .error .crossStore := by
  induction args with
  | nil => intro tys _ hex; rcases hex with ⟨v, hv, _⟩; simp at hv
  | cons a as ih =>
      intro tys hmap hex
      subst hmap
      simp only [List.map_cons, marshalArgs]
      by_cases hfs : a.is_from_store sid
      · rcases hex with ⟨v, hv, hfalse⟩
        rcases List.mem_cons.mp hv with h | h
        · subst h; rw [hfs] at hfalse; cases hfalse
        · have hrec := ih (as.map Value.ty) rfl ⟨v, h, hfalse⟩
          simp [hfs, hrec]
      · simp [hfs]

theorem callLoop_done_length (tramp : Trampoline)
    (hpres : ∀ (n : Nat) (b : List Nat), ((tramp n b).2).length = b.length) :
    ∀ (hooks : List HookOutcome) (n : Nat) (buf : List Nat)
      (r : Except RuntimeError Unit) (buf2 : List Nat) (cnt : Nat)
      (rest : List HookOutcome),
      callLoop tramp hooks n buf = (.done r buf2, cnt, rest) →
      buf2.length = buf.length := by
  intro hooks
  induction hooks with
  | nil =>
      intro n buf r buf2 cnt rest h
      simp only [callLoop, Prod.mk.injEq, LoopRes.done.injEq] at h
      rw [← h.1.2]
      exact hpres n buf
  | cons hk rest0 ih =>
      intro n buf r buf2 cnt rest h
      cases hk with
      | ok a =>
          cases a with
          | invokeAgain =>
              rw [callLoop] at h
              exact (ih _ _ _ _ _ _ h).trans (hpres n buf)
          | finish =>
              simp only [callLoop, Prod.mk.injEq, LoopRes.done.injEq] at h
              rw [← h.1.2]
              exact hpres n buf
          | trap t => simp [callLoop] at h
      | err t => simp [callLoop] at h

theorem callLoop_replicate_invokeAgain (tramp : Trampoline) (rest : List HookOutcome) :
    ∀ (N n : Nat) (buf : List Nat), ∃ buf2,
      callLoop tramp (List.replicate N (.ok .invokeAgain) ++ rest) n buf
        = callLoop tramp rest (n + N) buf2 := by
  intro N
  induction N with
  | zero => intro n buf; exact ⟨buf, by simp⟩
  | succ N ih =>
      intro n buf
      rw [List.replicate_succ, List.cons_append, callLoop]
      rcases ih (n + 1) ((tramp n buf).2) with ⟨buf2, h⟩
      have harith : n + 1 + N = n + (N + 1) := by omega
      exact ⟨buf2, by rw [h, harith]⟩

theorem call_wasm_raw_snd (f : SysFunction) (tramp : Trampoline) (sid : Nat)
    (hooks : List HookOutcome) (params : List Nat) :
    (call_wasm_raw f tramp sid hooks params).2 = (callLoop tramp hooks 0 params).2 := by
  rcases hc : callLoop tramp hooks 0 params with ⟨res, cnt, rest⟩
  cases res with
  | done r buf =>
      cases r with
      | error e => simp [call_wasm_raw, hc]
      | ok u => simp [call_wasm_raw, hc]
  | hookTrap e => simp [call_wasm_raw, hc]

/-- C1: in the dynamic invocation wrapper, when the host closure returns а
result list whose kinds-in-order (or count, via the iterator comparison)
differ from the declared result kinds, the wrapper returns an error with
the return buffer untouched; only on an exact match does it report success,
with the results serialized into the leading buffer slots in order and the
remaining slots untouched. -/
theorem dynamic_result_signature_check (funcTy : FunctionType)
    (host : List Value → HostRun (List Value)) (sid : Nat) (buf : List Nat)
    (rets : List Value)
    (hhost : host (readArgs funcTy sid buf) = .ok rets)
    (hlen : funcTy.results.length ≤ buf.length) :
    (rets.map Value.ty ≠ funcTy.results →
      dynWrapper funcTy host sid buf = (.err .wrongResultSig, buf))
    ∧ (rets.map Value.ty = funcTy.results →
      (dynWrapper funcTy host sid buf).1 = .ok ()
      ∧ ((dynWrapper funcTy host sid buf).2).length = buf.length
      ∧ (∀ j, j < rets.length →
          ((dynWrapper funcTy host sid buf).2)[j]?
            = some ((rets.getD j (Value.i32 0)).as_raw))
      ∧ ∀ j, rets.length ≤ j →
          ((dynWrapper funcTy host sid buf).2)[j]? = buf[j]?) := by
  constructor
  · intro hne
    simp [dynWrapper, hhost, hne]
  · intro heq
    have hwrap : dynWrapper funcTy host sid buf = (.ok (), writeResults 0 rets buf) := by
      simp [dynWrapper, hhost, heq]
    rw [hwrap]
    refine ⟨rfl, writeResults_length rets 0 buf, ?_, ?_⟩
    · intro j hj
      have hrlen : rets.length = funcTy.results.length := by
        rw [← heq]; simp
      have hjb : j < buf.length := by omega
      simpa using writeResults_getElem?_in rets 0 j buf (Nat.zero_le j) (by simpa using hj) hjb
    · intro j hj
      simpa using writeResults_getElem?_ge rets 0 j buf (by simpa using hj)

/-- C1 witness: a dynamic function declaring one i32 result whose closure
returns `[I32(5)]` passes the check; the wrapper reports success and slot 0
of the buffer holds the raw value 5. -/
theorem dynamic_result_signature_check_witness :
    ((fun _ : List Value => HostRun.ok [Value.i32 5])
        (readArgs ⟨[], [ValType.i32]⟩ 0 [0]) = HostRun.ok [Value.i32 5])
    ∧ ([ValType.i32] : List ValType).length ≤ ([0] : List Nat).length
    ∧ (dynWrapper ⟨[], [ValType.i32]⟩ (fun _ => HostRun.ok [Value.i32 5]) 0 [0]).1
        = HostRun.ok ()
    ∧ ((dynWrapper ⟨[], [ValType.i32]⟩ (fun _ => HostRun.ok [Value.i32 5]) 0 [0]).2)[0]?
        = some 5 := by
  have h := (dynamic_result_signature_check ⟨[], [ValType.i32]⟩
    (fun _ => HostRun.ok [Value.i32 5]) 0 [0] [Value.i32 5] rfl (by decide)).2 (by decide)
  refine ⟨rfl, by decide, h.1, ?_⟩
  simpa using h.2.2.1 0 (by decide)

/-- C2: in the trampoline loop, a hook chain of N `InvokeAgain` results
followed by `Finish` makes the native trampoline run exactly N + 1 times;
a hook consultation yielding `Trap(t)` (after K `InvokeAgain` results, in
particular the first consultation with K = 0), or a hook error, aborts the
call with that error as a user trap, with no result extraction. -/
theorem resumption_loop_behaviour (f : SysFunction) (tramp : Trampoline) (sid : Nat)
    (params : List Nat) :
    (∀ N : Nat,
      (call_wasm_raw f tramp sid
        (List.replicate N (.ok .invokeAgain) ++ [.ok .finish]) params).2.1 = N + 1)
    ∧ (∀ (K t : Nat) (rest : List HookOutcome),
      call_wasm_raw f tramp sid
        (List.replicate K (.ok .invokeAgain) ++ .ok (.trap t) :: rest) params
        = (.err (.user t), K + 1, rest))
    ∧ ∀ (t : Nat) (rest : List HookOutcome),
      call_wasm_raw f tramp sid (.err t :: rest) params
        = (.err (.user t), 1, rest) := by
  refine ⟨?_, ?_, ?_⟩
  · intro N
    have hsnd := call_wasm_raw_snd f tramp sid
      (List.replicate N (.ok .invokeAgain) ++ [.ok .finish]) params
    rcases callLoop_replicate_invokeAgain tramp [.ok .finish] N 0 params with ⟨buf2, hcl⟩
    have : (call_wasm_raw f tramp sid
        (List.replicate N (.ok .invokeAgain) ++ [.ok .finish]) params).2.1
        = (callLoop tramp [.ok .finish] (0 + N) buf2).2.1 := by
      rw [hsnd, hcl]
    rw [this]
    simp [callLoop]
  · intro K t rest
    rcases callLoop_replicate_invokeAgain tramp (.ok (.trap t) :: rest) K 0 params
      with ⟨buf2, hcl⟩
    have hred : callLoop tramp (.ok (.trap t) :: rest) (0 + K) buf2
        = (.hookTrap (.user t), 0 + K + 1, rest) := by
      rw [callLoop]
    rw [call_wasm_raw, hcl, hred]
    simp
  · intro t rest
    rw [call_wasm_raw]
    simp [callLoop]

/-- C3: a typed call on the sys backend with an argument count or any
argument kind differing from the declared parameters, or with an argument
not belonging to the calling store, returns an error with zero trampoline
invocations and the store's hook chain unconsumed. -/
theorem call_rejects_bad_args (f : SysFunction) (tramp : Trampoline) (store : Store)
    (params : List Value)
    (h : params.map Value.ty ≠ f.signature.params
      ∨ ∃ v ∈ params, v.is_from_store store.id = false) :
    ∃ e, SysFunction.call f tramp store params = (.err e, 0, store.onCalled) := by
  by_cases h1 : f.signature.params.length ≠ params.length
  · exact ⟨.paramMismatch, by simp [SysFunction.call, call_wasm, h1]⟩
  · have hlen : f.signature.params.length = params.length := not_ne_iff.mp h1
    rcases hm : marshalArgs store.id f.signature.params params with e | raws
    · exact ⟨e, by simp [SysFunction.call, call_wasm, h1, hm]⟩
    · exfalso
      have hs := marshalArgs_ok_sound store.id params f.signature.params raws hlen hm
      rcases h with hmap | ⟨v, hv, hfalse⟩
      · exact hmap hs.1
      · rw [hs.2 v hv] at hfalse
        cases hfalse

/-- C3 witness: the spec's scenario — a `(i32, i32) -> i32` function called
with the single argument `[I32(2)]` is rejected with no trampoline
invocation and no store mutation. -/
theorem call_rejects_bad_args_witness :
    (([Value.i32 2].map Value.ty ≠ ([ValType.i32, ValType.i32] : List ValType))
      ∨ ∃ v ∈ [Value.i32 2], v.is_from_store 0 = false)
    ∧ ∃ e, SysFunction.call
        (SysFunction.new_with_env ⟨0, []⟩ ⟨[ValType.i32, ValType.i32], [ValType.i32]⟩)
        idTrampoline ⟨0, []⟩ [Value.i32 2] = (.err e, 0, []) := by
  refine ⟨Or.inl (by decide), ?_⟩
  exact call_rejects_bad_args
    (SysFunction.new_with_env ⟨0, []⟩ ⟨[ValType.i32, ValType.i32], [ValType.i32]⟩)
    idTrampoline ⟨0, []⟩ [Value.i32 2] (Or.inl (by decide))

/-- C4: for stores A and B with distinct identities, a Function, ExternRef
or Global created in A answers `is_from_store` true for A and false for B;
and a call on store B whose argument kinds all match but where some
argument is not B-scoped (in particular an A-scoped reference) fails with
the cross-store error, with zero trampoline invocations. -/
theorem cross_store_detection (A B : Store) (hne : A.id ≠ B.id) (ty : FunctionType)
    (i : Nat) (v : Value) (m : Mutability) :
    (SysFunction.new_with_env A ty).is_from_store A = true
    ∧ (SysFunction.new_with_env A ty).is_from_store B = false
    ∧ (ExternRef.new A i).is_from_store A = true
    ∧ (ExternRef.new A i).is_from_store B = false
    ∧ (SysGlobal.from_value A v m).is_from_store A = true
    ∧ (SysGlobal.from_value A v m).is_from_store B = false
    ∧ ∀ (fB : SysFunction) (tramp : Trampoline) (params : List Value),
        params.map Value.ty = fB.signature.params →
        (∃ w ∈ params, w.is_from_store B.id = false) →
        SysFunction.call fB tramp B params = (.err .crossStore, 0, B.onCalled) := by
  refine ⟨?_, ?_, ?_, ?_, ?_, ?_, ?_⟩
  · simp [SysFunction.is_from_store, SysFunction.new_with_env]
  · simp [SysFunction.is_from_store, SysFunction.new_with_env, hne]
  · simp [ExternRef.is_from_store, ExternRef.new]
  · simp [ExternRef.is_from_store, ExternRef.new, hne]
  · simp [SysGlobal.is_from_store, SysGlobal.from_value]
  · simp [SysGlobal.is_from_store, SysGlobal.from_value, hne]
  · intro fB tramp params hmap hex
    have hlen : fB.signature.params.length = params.length := by
      rw [← hmap]; simp
    have hm := marshalArgs_cross_store B.id params fB.signature.params hmap hex
    simp [SysFunction.call, call_wasm, hlen, hm]

/-- C4 witness: stores with identities 0 and 1; a function created in store
0 answers `is_from_store` accordingly, and a call on store 1 passing a
store-0 funcref argument fails with the cross-store error and zero
trampoline invocations. -/
theorem cross_store_detection_witness :
    ((0 : Nat) ≠ 1)
    ∧ (SysFunction.new_with_env ⟨0, []⟩ ⟨[], []⟩).is_from_store ⟨0, []⟩ = true
    ∧ (SysFunction.new_with_env ⟨0, []⟩ ⟨[], []⟩).is_from_store ⟨1, []⟩ = false
    ∧ SysFunction.call (SysFunction.new_with_env ⟨1, []⟩ ⟨[ValType.funcref], []⟩)
        idTrampoline ⟨1, []⟩ [Value.funcref (some ⟨0, 5⟩)]
        = (.err .crossStore, 0, []) := by
  have h := cross_store_detection ⟨0, []⟩ ⟨1, []⟩ (by decide) ⟨[], []⟩ 0 (Value.i32 0) .const
  refine ⟨by decide, h.1, h.2.1, ?_⟩
  exact h.2.2.2.2.2.2 (SysFunction.new_with_env ⟨1, []⟩ ⟨[ValType.funcref], []⟩)
    idTrampoline [Value.funcref (some ⟨0, 5⟩)] (by decide)
    ⟨Value.funcref (some ⟨0, 5⟩), by simp, by decide⟩

/-- C7: the dynamic invocation boundary produces exactly one of three
disjoint outcomes — a closure returning Ok (with matching kinds) returns
normally with the written buffer and raises nothing; a closure returning a
runtime error raises it as a user trap; a closure that panics has the
panic caught and re-raised as a host panic, never reported as a trap and
never swallowed. -/
theorem func_wrapper_outcomes (funcTy : FunctionType)
    (host : List Value → HostRun (List Value)) (sid : Nat) (buf : List Nat) :
    (∀ rets, host (readArgs funcTy sid buf) = .ok rets →
      rets.map Value.ty = funcTy.results →
      DynamicFunction.func_wrapper funcTy host sid buf
        = .normalReturn (writeResults 0 rets buf))
    ∧ (∀ e, host (readArgs funcTy sid buf) = .err e →
      DynamicFunction.func_wrapper funcTy host sid buf = .userTrap e buf)
    ∧ ∀ p, host (readArgs funcTy sid buf) = .panicked p →
      DynamicFunction.func_wrapper funcTy host sid buf = .resumedPanic p := by
  refine ⟨?_, ?_, ?_⟩
  · intro rets hrets heq
    simp [DynamicFunction.func_wrapper, dynWrapper, hrets, heq]
  · intro e he
    simp [DynamicFunction.func_wrapper, dynWrapper, he]
  · intro p hp
    simp [DynamicFunction.func_wrapper, dynWrapper, hp]

/-- C7 witness: on a nullary signature, a closure failing with a runtime
error is observed as a user trap, and a panicking closure is observed as a
re-raised panic, at the concrete payloads 7 and 3. -/
theorem func_wrapper_outcomes_witness :
    ((fun _ : List Value => (HostRun.err (RuntimeError.user 7) : HostRun (List Value)))
        (readArgs ⟨[], []⟩ 0 []) = HostRun.err (RuntimeError.user 7))
    ∧ DynamicFunction.func_wrapper ⟨[], []⟩
        (fun _ => (HostRun.err (RuntimeError.user 7) : HostRun (List Value))) 0 []
        = .userTrap (RuntimeError.user 7) []
    ∧ ((fun _ : List Value => (HostRun.panicked 3 : HostRun (List Value)))
        (readArgs ⟨[], []⟩ 0 []) = HostRun.panicked 3)
    ∧ DynamicFunction.func_wrapper ⟨[], []⟩
        (fun _ => (HostRun.panicked 3 : HostRun (List Value))) 0 []
        = .resumedPanic 3 := by
  refine ⟨rfl, ?_, rfl, ?_⟩
  · exact (func_wrapper_outcomes ⟨[], []⟩
      (fun _ => (HostRun.err (RuntimeError.user 7) : HostRun (List Value))) 0 []).2.1 _ rfl
  · exact (func_wrapper_outcomes ⟨[], []⟩
      (fun _ => (HostRun.panicked 3 : HostRun (List Value))) 0 []).2.2 _ rfl

/-- C8: every façade `Function` constructor currently reaches `todo!()` and
panics — on the sys backend (and every other) none of them returns a
constructed Function. -/
theorem facade_constructors_panic_todo (emb : Embedder) (ty : FunctionType) :
    Function.new emb ty = .panicTodo
    ∧ Function.new_with_env emb ty = .panicTodo
    ∧ Function.new_typed emb ty = .panicTodo
    ∧ Function.new_typed_with_env emb ty = .panicTodo := by
  cases emb <;> exact ⟨rfl, rfl, rfl, rfl⟩

/-- C9: `StoreObjects::same` returns the store-identity equality for
same-variant pairs of the five backends with a match arm, but the missing
`(Wasmi, Wasmi)` arm sends two wasmi store-object sets into the
incompatible-backend panic (modelled as `none`). -/
theorem store_objects_same_wasmi_panics :
    (∀ i j : Nat, StoreObjects.same (.sys i) (.sys j) = some (i == j))
    ∧ (∀ i j : Nat, StoreObjects.same (.wamr i) (.wamr j) = some (i == j))
    ∧ (∀ i j : Nat, StoreObjects.same (.v8 i) (.v8 j) = some (i == j))
    ∧ (∀ i j : Nat, StoreObjects.same (.js i) (.js j) = some (i == j))
    ∧ (∀ i j : Nat, StoreObjects.same (.jsc i) (.jsc j) = some (i == j))
    ∧ ∀ i j : Nat, StoreObjects.same (.wasmi i) (.wasmi j) = none :=
  ⟨fun _ _ => rfl, fun _ _ => rfl, fun _ _ => rfl, fun _ _ => rfl,
    fun _ _ => rfl, fun _ _ => rfl⟩

/-- C10: the unmarshal step panics exactly when the raw buffer is shorter
than the result arity; `Function::call` never panics there because it sizes
the buffer to max(parameter count, result count); but `Function::call_raw`
passes the caller's vector through unchecked, and on a function with one
declared result and an empty raw-params vector it panics instead of
returning an error. -/
theorem call_raw_unmarshal_bounds :
    (∀ (sid : Nat) (tys : List ValType) (buf : List Nat),
      unmarshalResults sid tys buf = .panicked ↔ buf.length < tys.length)
    ∧ (∀ (f : SysFunction) (tramp : Trampoline) (store : Store) (params : List Value),
      (∀ (n : Nat) (b : List Nat), ((tramp n b).2).length = b.length) →
      (SysFunction.call f tramp store params).1 ≠ CallOutcome.panicked)
    ∧ SysFunction.call_raw ⟨0, ⟨[], [ValType.i32]⟩, .dynamic⟩ idTrampoline ⟨0, []⟩ []
        = (CallOutcome.panicked, 1, []) := by
  refine ⟨?_, ?_, rfl⟩
  · intro sid tys buf
    by_cases h : tys.length ≤ buf.length
    · simp [unmarshalResults, h]
    · simp [unmarshalResults, h]
      omega
  · intro f tramp store params hpres
    simp only [SysFunction.call, call_wasm]
    by_cases h1 : f.signature.params.length ≠ params.length
    · simp [h1]
    · have hlen : f.signature.params.length = params.length := not_ne_iff.mp h1
      simp only [h1, if_false, ne_eq, not_true_eq_false]
      rcases hm : marshalArgs store.id f.signature.params params with e | raws
      · simp [hm]
      · simp only [hm]
        have hraws : raws.length = params.length :=
          marshalArgs_ok_length store.id params f.signature.params raws hlen hm
        rcases hc : callLoop tramp store.onCalled 0
          (raws ++ List.replicate
            (max params.length f.signature.results.length - params.length) 0)
          with ⟨res, cnt, rest⟩
        cases res with
        | hookTrap e => simp [call_wasm_raw, hc]
        | done r buf2 =>
            cases r with
            | error e => simp [call_wasm_raw, hc]
            | ok u =>
                have hb2 := callLoop_done_length tramp hpres store.onCalled 0 _ _ _ _ _ hc
                have hveclen :
                    (raws ++ List.replicate
                      (max params.length f.signature.results.length - params.length)
                      0).length
                    = max params.length f.signature.results.length := by
                  simp [hraws]
                have hok : f.signature.results.length ≤ buf2.length := by
                  rw [hb2, hveclen]
                  omega
                simp [call_wasm_raw, hc, unmarshalResults, hok]

/-- C10 witness: with a length-preserving trampoline, a typed call of a
nullary one-result function on explicit inputs does not panic. -/
theorem call_raw_unmarshal_bounds_witness :
    (∀ (n : Nat) (b : List Nat), ((idTrampoline n b).2).length = b.length)
    ∧ (SysFunction.call (SysFunction.new_with_env ⟨0, []⟩ ⟨[], [ValType.i32]⟩)
        idTrampoline ⟨0, []⟩ []).1 ≠ CallOutcome.panicked := by
  refine ⟨fun _ _ => rfl, ?_⟩
  exact call_raw_unmarshal_bounds.2.1
    (SysFunction.new_with_env ⟨0, []⟩ ⟨[], [ValType.i32]⟩)
    idTrampoline ⟨0, []⟩ [] (fun _ _ => rfl)

end Wasmer
